import Mathlib

/-!
Verification development for the OpenPond overlay node (`src/p2p.ts`,
`src/node.ts`, `src/constants.ts` of the `openpond/node` repository).

The TypeScript source is embedded shallowly: pure computations become Lean
functions, the mutable `P2PNetwork` instance state becomes an explicit
`NodeState` record transformed by operations, and external effects
(libp2p dials, the on-chain registry, viem signature checks, ECIES
decryption, the system clock) become explicit oracle parameters.
JS `Map.set` is modelled by `mapSet` on association lists, JS string
falsiness (`!s`) by comparison with `""`, and `toLowerCase` by a
character-wise ASCII lowering `jsToLower`.
-/

namespace OpenPond

/-- Character-wise lowercase, the model of JS `String.prototype.toLowerCase`
as applied to the ASCII peer ids and `0x` hex addresses of this program. -/
def jsToLower (s : String) : String :=
  String.mk (s.data.map Char.toLower)

/-- Prefix test over the character list, the model of JS
`String.prototype.startsWith`. -/
def jsStartsWith (s p : String) : Bool :=
  s.data.take p.data.length == p.data

/-- The characters after the first occurrence of `marker`, empty when the
marker does not occur. -/
def suffixAfterMarker (marker : List Char) : List Char → List Char
  | [] => []
  | c :: rest =>
    if (c :: rest).take marker.length = marker then (c :: rest).drop marker.length
    else suffixAfterMarker marker rest

/-- JS `Map.prototype.set` on an association list: replace the value in
place when the key exists, otherwise append the pair. -/
def mapSet {α : Type} : List (String × α) → String → α → List (String × α)
  | [], k, v => [(k, v)]
  | (k', v') :: rest, k, v =>
    if k' = k then (k, v) :: rest else (k', v') :: mapSet rest k v

/-- JS `Map.prototype.get` on an association list. -/
def mapFind {α : Type} : List (String × α) → String → Option α
  | [], _ => none
  | (k', v') :: rest, k => if k' = k then some v' else mapFind rest k

theorem mapSet_find_self {α : Type} (l : List (String × α)) (k : String) (v : α) :
    mapFind (mapSet l k v) k = some v := by
  induction l with
  | nil => simp [mapSet, mapFind]
  | cons hd tl ih =>
    obtain ⟨k', v'⟩ := hd
    by_cases h : k' = k
    · simp [mapSet, mapFind, h]
    · simp [mapSet, mapFind, h, ih]

theorem mapSet_mem {α : Type} (l : List (String × α)) (k : String) (v : α) :
    ∀ e ∈ mapSet l k v, e ∈ l ∨ e = (k, v) := by
  induction l with
  | nil => simp [mapSet]
  | cons hd tl ih =>
    intro e he
    obtain ⟨k', v'⟩ := hd
    by_cases h : k' = k
    · simp only [mapSet, if_pos h, List.mem_cons] at he
      rcases he with h1 | h2
      · right; exact h1
      · left; exact List.mem_cons_of_mem _ h2
    · simp only [mapSet, if_neg h, List.mem_cons] at he
      rcases he with h1 | h2
      · left; exact h1 ▸ List.mem_cons_self _ _
      · rcases ih e h2 with h3 | h4
        · left; exact List.mem_cons_of_mem _ h3
        · right; exact h4

/-! ## Role policy (`src/types/p2p.ts`) -/

/-- The four node roles of the network, from the `NodeRole` enum. -/
inductive NodeRole where
  | BOOTSTRAP
  | FULL
  | SERVER
  | LIGHT
  deriving DecidableEq, Repr

/-- The `NodeConfiguration` interface: one configuration bundle per role.
All intervals are in milliseconds, as in the source. -/
structure NodeConfiguration where
  maxConnections : Nat
  enableGossip : Bool
  enableDHT : Bool
  dhtServerMode : Bool
  minConnections : Nat
  bootstrapRequired : Bool
  maxParallelDials : Nat
  dialTimeout : Nat
  autoDialInterval : Nat
  relayMessages : Bool
  kBucketSize : Nat
  maxDHTInboundStreams : Nat
  maxDHTOutboundStreams : Nat
  gossipHeartbeatInterval : Nat
  allowPublishToZeroPeers : Bool
  emitSelf : Bool
  dhtUpdateInterval : Nat
  minDHTUpdateInterval : Nat
  deriving DecidableEq, Repr

/-- The `roleConfigs` table, translated field for field from the source. -/
def roleConfigs : NodeRole → NodeConfiguration
  | .BOOTSTRAP =>
    { maxConnections := 1000, enableGossip := true, enableDHT := true
      dhtServerMode := true, minConnections := 3, bootstrapRequired := false
      maxParallelDials := 100, dialTimeout := 30000, autoDialInterval := 10000
      relayMessages := false, kBucketSize := 200
      maxDHTInboundStreams := 5000, maxDHTOutboundStreams := 5000
      gossipHeartbeatInterval := 1000, allowPublishToZeroPeers := true
      emitSelf := true, dhtUpdateInterval := 30000, minDHTUpdateInterval := 10000 }
  | .FULL =>
    { maxConnections := 50, enableGossip := true, enableDHT := true
      dhtServerMode := false, minConnections := 1, bootstrapRequired := true
      maxParallelDials := 25, dialTimeout := 30000, autoDialInterval := 10000
      relayMessages := false, kBucketSize := 20
      maxDHTInboundStreams := 5000, maxDHTOutboundStreams := 5000
      gossipHeartbeatInterval := 1000, allowPublishToZeroPeers := true
      emitSelf := true, dhtUpdateInterval := 60000, minDHTUpdateInterval := 20000 }
  | .SERVER =>
    { maxConnections := 100, enableGossip := true, enableDHT := true
      dhtServerMode := false, minConnections := 2, bootstrapRequired := true
      maxParallelDials := 50, dialTimeout := 30000, autoDialInterval := 10000
      relayMessages := true, kBucketSize := 20
      maxDHTInboundStreams := 5000, maxDHTOutboundStreams := 5000
      gossipHeartbeatInterval := 1000, allowPublishToZeroPeers := true
      emitSelf := true, dhtUpdateInterval := 45000, minDHTUpdateInterval := 15000 }
  | .LIGHT =>
    { maxConnections := 10, enableGossip := false, enableDHT := false
      dhtServerMode := false, minConnections := 1, bootstrapRequired := true
      maxParallelDials := 10, dialTimeout := 30000, autoDialInterval := 20000
      relayMessages := false, kBucketSize := 0
      maxDHTInboundStreams := 0, maxDHTOutboundStreams := 0
      gossipHeartbeatInterval := 1000, allowPublishToZeroPeers := false
      emitSelf := true, dhtUpdateInterval := 120000, minDHTUpdateInterval := 30000 }

/-- One row of the specification's role-option table (section 4.2 of the
spec); the spec lists sixteen options, omitting the DHT stream limits. -/
structure SpecRoleRow where
  maxConnections : Nat
  minConnections : Nat
  maxParallelDials : Nat
  dialTimeout : Nat
  autoDialInterval : Nat
  enableDHT : Bool
  dhtServerMode : Bool
  kBucketSize : Nat
  enableGossip : Bool
  gossipHeartbeat : Nat
  allowPublishToZeroPeers : Bool
  emitSelf : Bool
  relayMessages : Bool
  bootstrapRequired : Bool
  dhtUpdateInterval : Nat
  minDHTUpdateInterval : Nat
  deriving DecidableEq, Repr

/-- Modelled from the spec: the option table of section 4.2, seconds
converted to milliseconds. This is the spec side of the refinement
comparison for the role-policy claim; `roleConfigs` is the code side. -/
def specRoleTable : NodeRole → SpecRoleRow
  | .BOOTSTRAP =>
    { maxConnections := 1000, minConnections := 3, maxParallelDials := 100
      dialTimeout := 30000, autoDialInterval := 10000, enableDHT := true
      dhtServerMode := true, kBucketSize := 200, enableGossip := true
      gossipHeartbeat := 1000, allowPublishToZeroPeers := true, emitSelf := true
      relayMessages := false, bootstrapRequired := false
      dhtUpdateInterval := 30000, minDHTUpdateInterval := 10000 }
  | .FULL =>
    { maxConnections := 50, minConnections := 1, maxParallelDials := 25
      dialTimeout := 30000, autoDialInterval := 10000, enableDHT := true
      dhtServerMode := false, kBucketSize := 20, enableGossip := true
      gossipHeartbeat := 1000, allowPublishToZeroPeers := true, emitSelf := true
      relayMessages := false, bootstrapRequired := true
      dhtUpdateInterval := 60000, minDHTUpdateInterval := 20000 }
  | .SERVER =>
    { maxConnections := 100, minConnections := 2, maxParallelDials := 50
      dialTimeout := 30000, autoDialInterval := 10000, enableDHT := true
      dhtServerMode := false, kBucketSize := 20, enableGossip := true
      gossipHeartbeat := 1000, allowPublishToZeroPeers := true, emitSelf := true
      relayMessages := true, bootstrapRequired := true
      dhtUpdateInterval := 45000, minDHTUpdateInterval := 15000 }
  | .LIGHT =>
    { maxConnections := 10, minConnections := 1, maxParallelDials := 10
      dialTimeout := 30000, autoDialInterval := 20000, enableDHT := false
      dhtServerMode := false, kBucketSize := 0, enableGossip := false
      gossipHeartbeat := 1000, allowPublishToZeroPeers := false, emitSelf := true
      relayMessages := false, bootstrapRequired := true
      dhtUpdateInterval := 120000, minDHTUpdateInterval := 30000 }

/-- Field-by-field agreement between a `roleConfigs` bundle and a spec
table row, on exactly the sixteen options the spec lists. -/
def matchesSpecRow (c : NodeConfiguration) (row : SpecRoleRow) : Bool :=
  c.maxConnections == row.maxConnections &&
  c.minConnections == row.minConnections &&
  c.maxParallelDials == row.maxParallelDials &&
  c.dialTimeout == row.dialTimeout &&
  c.autoDialInterval == row.autoDialInterval &&
  c.enableDHT == row.enableDHT &&
  c.dhtServerMode == row.dhtServerMode &&
  c.kBucketSize == row.kBucketSize &&
  c.enableGossip == row.enableGossip &&
  c.gossipHeartbeatInterval == row.gossipHeartbeat &&
  c.allowPublishToZeroPeers == row.allowPublishToZeroPeers &&
  c.emitSelf == row.emitSelf &&
  c.relayMessages == row.relayMessages &&
  c.bootstrapRequired == row.bootstrapRequired &&
  c.dhtUpdateInterval == row.dhtUpdateInterval &&
  c.minDHTUpdateInterval == row.minDHTUpdateInterval

/-! ## Bootstrap registry (`src/constants.ts`) -/

/-- The two deployment networks of `src/constants.ts`. -/
inductive Network where
  | base
  | sepolia
  deriving DecidableEq, Repr

/-- The `BOOTSTRAP_URLS` table. -/
def bootstrapUrls : Network → List (String × String)
  | .base =>
    [("bootstrap-1", "us-east.hosting.openpond.ai"),
     ("bootstrap-2", "us-west.hosting.openpond.ai"),
     ("bootstrap-3", "eu-west.hosting.openpond.ai"),
     ("bootstrap-4", "sea.hosting.openpond.ai")]
  | .sepolia =>
    [("bootstrap-1", "us-east.sepolia.openpond.ai"),
     ("bootstrap-2", "us-west.sepolia.openpond.ai"),
     ("bootstrap-3", "eu-west.sepolia.openpond.ai"),
     ("bootstrap-4", "sea.sepolia.openpond.ai")]

/-- The `BOOTSTRAP_PEER_IDS` table. -/
def bootstrapPeerIdTable : Network → List (String × String)
  | .base =>
    [("bootstrap-1", "16Uiu2HAmDD9JV9oqwTGiZzMJzEZJPA6hgrUyzSXdcqpnVhUJ2eXa"),
     ("bootstrap-2", "16Uiu2HAkz9FFsJDhfx2658VXcmeooxtqPqtMYWUG5nJRXBWH45zc"),
     ("bootstrap-3", "16Uiu2HAkwbtWw6HueqKdCK58oFKhfcpGL4bBJ4f6zndiD6mjmH4g"),
     ("bootstrap-4", "16Uiu2HAm3rX7ZXyLo3FRNstXYWNZE55r8pRoXLzvSauNGEmkVLnh")]
  | .sepolia =>
    [("bootstrap-1", "16Uiu2HAmDD9JV9oqwTGiZzMJzEZJPA6hgrUyzSXdcqpnVhUJ2eXa"),
     ("bootstrap-2", "16Uiu2HAkz9FFsJDhfx2658VXcmeooxtqPqtMYWUG5nJRXBWH45zc"),
     ("bootstrap-3", "16Uiu2HAkwbtWw6HueqKdCK58oFKhfcpGL4bBJ4f6zndiD6mjmH4g"),
     ("bootstrap-4", "16Uiu2HAm3rX7ZXyLo3FRNstXYWNZE55r8pRoXLzvSauNGEmkVLnh")]

/-- The `BOOTSTRAP_PORTS` table (port strings, as in the source). -/
def bootstrapPorts : Network → List (String × String)
  | .base =>
    [("bootstrap-1", "14220"), ("bootstrap-2", "43343"),
     ("bootstrap-3", "37008"), ("bootstrap-4", "19293")]
  | .sepolia =>
    [("bootstrap-1", "14220"), ("bootstrap-2", "43343"),
     ("bootstrap-3", "37008"), ("bootstrap-4", "19293")]

/-- The four registry entry names common to both networks. -/
def bootstrapRegistryNames : List String :=
  ["bootstrap-1", "bootstrap-2", "bootstrap-3", "bootstrap-4"]

/-- The `getBootstrapHostname` accessor; an unknown name yields the string
a JS template literal prints for `undefined`. -/
def getBootstrapHostname (n : Network) (name : String) : String :=
  (mapFind (bootstrapUrls n) name).getD "undefined"

/-- The `getBootstrapPort` accessor, totalized like `getBootstrapHostname`. -/
def getBootstrapPort (n : Network) (name : String) : String :=
  (mapFind (bootstrapPorts n) name).getD "undefined"

/-- The `getBootstrapNodes` function: one `/dns4/<host>/tcp/<port>/p2p/<peerId>`
multiaddress per registry entry. -/
def getBootstrapNodes (n : Network) : List String :=
  (bootstrapPeerIdTable n).map (fun p =>
    "/dns4/" ++ getBootstrapHostname n p.1 ++ "/tcp/" ++
      getBootstrapPort n p.1 ++ "/p2p/" ++ p.2)

/-- The `node.split("/p2p/")[1]` projection used by the constructor. The
bootstrap multiaddresses contain `/p2p/` exactly once, so element 1 of
the JS split is the suffix after the first occurrence; an input without
the marker, where element 1 is `undefined`, is modelled by `""`. -/
def splitAfterP2P (s : String) : String :=
  String.mk (suffixAfterMarker "/p2p/".data s.data)

/-- The strings the constructor compares the account address against:
the `/p2p/` suffixes of the bootstrap multiaddresses, which are libp2p
peer ids. -/
def bootstrapPeerIdStrings (n : Network) : List String :=
  (getBootstrapNodes n).map splitAfterP2P

/-- The constructor's bootstrap-mode computation: membership of the
lowercased account address in the peer-id suffix list. -/
def ctorBootstrapMode (n : Network) (accountAddress : String) : Bool :=
  (bootstrapPeerIdStrings n).contains (jsToLower accountAddress)

/-- The name test `agentName.startsWith("bootstrap-")` that `start()` uses
to select every bootstrap-specific configuration branch. -/
def startIsBootstrap (agentName : String) : Bool :=
  jsStartsWith agentName "bootstrap-"

/-- The value of the `bootstrapMode` field once `start()` has run: the
constructor's address check, forced to `true` by the name test. -/
def operatesAsBootstrap (n : Network) (accountAddress agentName : String) : Bool :=
  startIsBootstrap agentName || ctorBootstrapMode n accountAddress

/-- Modelled from the spec: a node matches the deployment's bootstrap
registry when its configured name is one of the four entry names; the
registry entries are `(name, hostname, port, pinnedPeerId)` tuples and
carry no account addresses, so an account address never matches one. -/
def specMatchesBootstrapRegistry (accountAddress agentName : String) : Bool :=
  bootstrapRegistryNames.contains agentName ||
    bootstrapRegistryNames.contains accountAddress

/-! ## Applied networking options (`P2PNetwork.start`) -/

/-- The libp2p options that `start(port)` actually assembles, field for
field from the object literal in the source. Every role-dependent-looking
value is the result of an `agentName.startsWith("bootstrap-")` ternary. -/
structure AppliedOptions where
  listenAddrs : List String
  announceAddrs : List String
  allowPublishToZeroTopicPeers : Bool
  emitSelf : Bool
  heartbeatInterval : Nat
  directPeers : List String
  dhtClientMode : Bool
  dhtProtocol : String
  maxDHTInboundStreams : Nat
  maxDHTOutboundStreams : Nat
  kBucketSize : Nat
  allowQueryWithZeroPeers : Bool
  maxConnections : Nat
  minConnections : Nat
  maxParallelDials : Nat
  dialTimeout : Nat
  autoDialInterval : Nat
  deriving DecidableEq, Repr

/-- The options `start(port)` builds. `bootstrapNodes` is the instance
field of the same name (the registry multiaddresses for a non-bootstrap
node, empty otherwise); the announce addresses reuse the registry
hostname and port tables keyed by the agent name. -/
def startOptions (n : Network) (agentName : String) (port : Nat)
    (bootstrapNodes : List String) : AppliedOptions :=
  let isB := startIsBootstrap agentName
  { listenAddrs := ["/ip4/0.0.0.0/tcp/" ++ toString port]
    announceAddrs :=
      if isB then
        ["/dns4/" ++ getBootstrapHostname n agentName ++ "/tcp/" ++
          getBootstrapPort n agentName]
      else []
    allowPublishToZeroTopicPeers := true
    emitSelf := true
    heartbeatInterval := 1000
    directPeers := if isB then [] else bootstrapNodes
    dhtClientMode := !isB
    dhtProtocol := "/openpond/kad/1.0.0"
    maxDHTInboundStreams := 5000
    maxDHTOutboundStreams := 5000
    kBucketSize := if isB then 200 else 20
    allowQueryWithZeroPeers := true
    maxConnections := if isB then 1000 else 50
    minConnections := if isB then 3 else 1
    maxParallelDials := if isB then 100 else 25
    dialTimeout := 30000
    autoDialInterval := 10000 }

/-- The name `src/node.ts` gives a node: the `BOOTSTRAP_NAME` variable or
`"bootstrap-1"` for the BOOTSTRAP role, the `AGENT_NAME` variable or
`"agent-1"` otherwise. -/
def defaultAgentName (role : NodeRole) (bootstrapNameEnv agentNameEnv : Option String) : String :=
  match role with
  | .BOOTSTRAP => bootstrapNameEnv.getD "bootstrap-1"
  | _ => agentNameEnv.getD "agent-1"

/-- Agreement of the applied options with the connection and DHT columns
of a `roleConfigs` row. -/
def appliedMatchesRole (o : AppliedOptions) (r : NodeRole) : Bool :=
  o.maxConnections == (roleConfigs r).maxConnections &&
  o.minConnections == (roleConfigs r).minConnections &&
  o.maxParallelDials == (roleConfigs r).maxParallelDials &&
  o.dialTimeout == (roleConfigs r).dialTimeout &&
  o.autoDialInterval == (roleConfigs r).autoDialInterval &&
  o.dhtClientMode == !(roleConfigs r).dhtServerMode &&
  o.kBucketSize == (roleConfigs r).kBucketSize &&
  o.heartbeatInterval == (roleConfigs r).gossipHeartbeatInterval &&
  o.emitSelf == (roleConfigs r).emitSelf

/-! ## Application messages (`P2PAgentMessage`, `handleAgentMessage`) -/

/-- The over-the-wire message. `toAgentId = ""` models an absent or empty
(JS-falsy) recipient; `content` is the byte array of `content.encrypted`. -/
structure P2PAgentMessage where
  messageId : String
  fromAgentId : String
  toAgentId : String
  content : List Nat
  timestamp : Int
  nonce : Int
  signature : String
  deriving DecidableEq, Repr

/-- The object `handleAgentMessage` emits on the `message` event for the
local API streams. -/
structure DeliveredMessage where
  messageId : String
  fromAgentId : String
  toAgentId : String
  content : String
  timestamp : Int
  deriving DecidableEq, Repr

/-- The `verifyMessage` method: the external viem `verifyMessage` call
(oracle `verifySig`, taking address, payload and signature) applied to the
claimed `fromAgentId` and the canonical JSON of the message minus its
`signature` field (oracle `canon`). -/
def verifyMessage (verifySig : String → String → String → Bool)
    (canon : P2PAgentMessage → String) (m : P2PAgentMessage) : Bool :=
  verifySig m.fromAgentId (canon m) m.signature

/-- The `handleAgentMessage` receive path: drop on bad signature, drop on
missing recipient, drop on foreign recipient (lowercased comparison);
otherwise trial-decrypt (oracle `dec`, the eciesjs `decrypt` with this
node's key), falling back to decoding the original bytes as UTF-8
(oracle `utf8`, the `TextDecoder`), and emit. -/
def handleAgentMessage (verifySig : String → String → String → Bool)
    (canon : P2PAgentMessage → String) (dec : List Nat → Option (List Nat))
    (utf8 : List Nat → String) (selfAddr : String) (m : P2PAgentMessage) :
    Option DeliveredMessage :=
  if !(verifyMessage verifySig canon m) then none
  else if m.toAgentId = "" then none
  else if jsToLower m.toAgentId = jsToLower selfAddr then
    some { messageId := m.messageId
           fromAgentId := m.fromAgentId
           toAgentId := m.toAgentId
           content :=
             match dec m.content with
             | some d => utf8 d
             | none => utf8 m.content
           timestamp := m.timestamp }
  else none

/-! ## Directory, status table and metrics (`P2PNetwork` instance state) -/

/-- A gossip announcement as destructured by `verifyAndProcessAnnouncement`:
`{ peerId, agentId, agentName, multiaddrs }`. The published announcement
carries no signature and no `fromAgentId`; `""` models an absent field. -/
structure Announcement where
  peerId : String
  agentId : String
  agentName : String
  multiaddrs : List String
  deriving DecidableEq, Repr

/-- A stored node-status report: the payload blob and the local
`receivedAt` stamp attached on receipt. -/
structure StatusReport where
  payload : String
  receivedAt : Int
  deriving DecidableEq, Repr

/-- The mutable fields of a `P2PNetwork` instance that the directory,
status and metrics claims concern. -/
structure NodeState where
  selfAddr : String
  knownPeers : List String
  knownPeerToEthMap : List (String × String)
  knownAgentNames : List (String × String)
  nodeStatuses : List (String × StatusReport)
  messagesSent : Nat
  messagesReceived : Nat
  deriving DecidableEq, Repr

/-- The state of a freshly constructed instance: every table empty, both
counters zero. -/
def initState (selfAddr : String) : NodeState :=
  { selfAddr := selfAddr, knownPeers := [], knownPeerToEthMap := []
    knownAgentNames := [], nodeStatuses := [], messagesSent := 0
    messagesReceived := 0 }

/-- The `verifyAndProcessAnnouncement` handler: return unchanged when
`peerId` or `agentId` is falsy or `agentId` is string-equal to the own
address; otherwise record the display name under the lowercased address
and the peer binding under the peer id. No signature is checked. -/
def verifyAndProcessAnnouncement (s : NodeState) (a : Announcement) : NodeState :=
  if a.peerId = "" ∨ a.agentId = "" ∨ a.agentId = s.selfAddr then s
  else
    { s with
      knownAgentNames := mapSet s.knownAgentNames (jsToLower a.agentId) a.agentName
      knownPeerToEthMap := mapSet s.knownPeerToEthMap a.peerId a.agentId }

/-- The `storePeerMapping` method, also the effect of a DHT `PROVIDER`
hit in `lookupPeerIdByAddress` and of the bootstrap-address writes in
`startDiscovery`: an unconditional `knownPeerToEthMap.set`. -/
def storePeerMapping (s : NodeState) (peerId ethAddress : String) : NodeState :=
  { s with knownPeerToEthMap := mapSet s.knownPeerToEthMap peerId ethAddress }

/-- The `peer:connect` listener installed by `setupPubSub` when its DHT
lookup for the new peer returns a record with an `agentId`: an
unconditional `knownPeerToEthMap.set(peerId, record.agentId)`. -/
def peerConnectDhtHit (s : NodeState) (peerId agentId : String) : NodeState :=
  { s with knownPeerToEthMap := mapSet s.knownPeerToEthMap peerId agentId }

/-- The store step of `handleStatusUpdate` after its signature check
passed: `nodeStatuses.set(agentId, { ...status, receivedAt: now })`. -/
def handleStatusUpdate (s : NodeState) (agentId payload : String) (now : Int) : NodeState :=
  { s with nodeStatuses :=
      mapSet s.nodeStatuses agentId { payload := payload, receivedAt := now } }

/-- The purge loop of `getNetworkStatus`: delete every entry whose age
exceeds 120000 ms. -/
def purgeStatuses (now : Int) (l : List (String × StatusReport)) :
    List (String × StatusReport) :=
  l.filter (fun e => !(decide (now - e.2.receivedAt > 120000)))

/-- The `getNetworkStatus` query: purge, then return the remaining
reports; the purged table persists in the instance state. -/
def getNetworkStatus (s : NodeState) (now : Int) : NodeState × List StatusReport :=
  let s2 := { s with nodeStatuses := purgeStatuses now s.nodeStatuses }
  (s2, s2.nodeStatuses.map (fun e => e.2))

/-- The state-mutating operations a running node performs, one per write
path in the source. -/
inductive Op where
  | announcement (a : Announcement)
  | peerConnect (peerId agentId : String)
  | dhtProviderHit (peerId ethAddress : String)
  | bootstrapPeerStore (peerId ethAddress : String)
  | deliverMessage
  | sendOk
  | statusUpdate (agentId payload : String) (now : Int)
  | statusQuery (now : Int)
  deriving Repr

/-- One step of the node: dispatch an operation to its handler. -/
def applyOp (s : NodeState) : Op → NodeState
  | .announcement a => verifyAndProcessAnnouncement s a
  | .peerConnect peerId agentId => peerConnectDhtHit s peerId agentId
  | .dhtProviderHit peerId ethAddress => storePeerMapping s peerId ethAddress
  | .bootstrapPeerStore peerId ethAddress => storePeerMapping s peerId ethAddress
  | .deliverMessage => { s with messagesReceived := s.messagesReceived + 1 }
  | .sendOk => { s with messagesSent := s.messagesSent + 1 }
  | .statusUpdate agentId payload now => handleStatusUpdate s agentId payload now
  | .statusQuery now => (getNetworkStatus s now).1

/-- The state reached from a fresh instance by a sequence of operations. -/
def runOps (selfAddr : String) (ops : List Op) : NodeState :=
  ops.foldl applyOp (initState selfAddr)

/-- The `getPeers` accessor: the contents of the `knownPeers` set. -/
def getPeers (s : NodeState) : List String :=
  s.knownPeers

/-- The `peersCount` field of `getMetrics`: the size of `knownPeers`. -/
def metricsPeersCount (s : NodeState) : Nat :=
  s.knownPeers.length

/-- Whether the directory tables hold an entry for the node's own account
address under the lowercased comparison the rest of the code uses. -/
def directoryContainsSelf (s : NodeState) : Bool :=
  s.knownPeerToEthMap.any (fun e => jsToLower e.2 == jsToLower s.selfAddr) ||
  s.knownAgentNames.any (fun e => e.1 == jsToLower s.selfAddr)

/-- Modelled from the spec: the verification section 4.5 prescribes for a
gossip announcement — the enclosing message is signed by `fromAgentId`
and `fromAgentId` equals the announced address. The spec side of the
refinement comparison for the announcement claim. -/
def specAnnouncementVerified (signedByFrom : Bool) (fromAgentId address : String) : Bool :=
  signedByFrom && (fromAgentId == address)

/-! ## Bootstrap connectivity at startup (`waitForBootstrapConnection`,
`startDiscovery`) -/

/-- The dial timeout `AbortSignal.timeout(10000)` of `startDiscovery`. -/
def DIAL_TIMEOUT_MS : Nat := 10000

/-- The 5000 ms `setTimeout` back-off between `startDiscovery` rounds. -/
def RETRY_BACKOFF_MS : Nat := 5000

/-- The attempt bound of the non-bootstrap `startDiscovery` loop. -/
def MAX_BOOTSTRAP_ATTEMPTS : Nat := 5

/-- The retry loop of `startDiscovery` for a non-bootstrap node, over an
environment `dialOk attempt addr` giving each dial's outcome: a round
succeeds when some bootstrap address dials successfully, and rounds are
retried while attempts remain. -/
def discoveryRounds (addrs : List String) (dialOk : Nat → String → Bool) :
    Nat → Nat → Bool
  | 0, _ => false
  | remaining + 1, attempt =>
    if addrs.any (fun addr => dialOk attempt addr) then true
    else discoveryRounds addrs dialOk remaining (attempt + 1)

/-- The non-bootstrap branch of `startDiscovery`: five rounds starting at
attempt 1, then `throw` with the source's message. -/
def startDiscoveryRegular (addrs : List String) (dialOk : Nat → String → Bool) :
    Except String Unit :=
  if discoveryRounds addrs dialOk MAX_BOOTSTRAP_ATTEMPTS 1 then Except.ok ()
  else Except.error "Failed to connect to any bootstrap nodes after 5 attempts"

/-- The `waitForBootstrapConnection` poll: given the connected-peer count
observed at each 1 s poll, whether the promise has resolved within the
first `polls` polls. The source installs no timeout and never rejects. -/
def waitResolvesWithin (peersAtPoll : Nat → Nat) (polls : Nat) : Bool :=
  (List.range polls).any (fun k => decide (0 < peersAtPoll k))

/-- The observable outcome of `start()` for a non-bootstrap node after a
given number of bootstrap-connection polls. -/
inductive StartOutcome where
  | running
  | failed (msg : String)
  | waiting
  deriving DecidableEq, Repr

/-- The non-bootstrap sequencing of `start()`: `waitForBootstrapConnection`
first, and only once it has resolved, `startDiscovery`; while the wait has
not resolved the call is still pending. -/
def startRegular (peersAtPoll : Nat → Nat) (addrs : List String)
    (dialOk : Nat → String → Bool) (polls : Nat) : StartOutcome :=
  if waitResolvesWithin peersAtPoll polls then
    match startDiscoveryRegular addrs dialOk with
    | Except.ok _ => StartOutcome.running
    | Except.error e => StartOutcome.failed e
  else StartOutcome.waiting

/-- Whether `start()` is still pending after every finite number of polls
in the given environment: the formal sense of blocking indefinitely. -/
def startBlocksForever (peersAtPoll : Nat → Nat) (addrs : List String)
    (dialOk : Nat → String → Bool) : Prop :=
  ∀ polls, startRegular peersAtPoll addrs dialOk polls = StartOutcome.waiting

/-! ## Sending (`P2PNetwork.sendMessage`) -/

/-- The environment a single `sendMessage` call observes: the result of
`lookupPeerIdByAddress`, the encryption switch, the outcome of the
registry fetch plus ECIES encryption, the UTF-8 encoder, successive
`Date.now()` readings, the `Math.random` suffix, the wallet signature and
the pubsub publish outcome. -/
structure SendEnv where
  lookupResult : Option String
  useEncryption : Bool
  encryptResult : Except String (List Nat)
  utf8Enc : String → List Nat
  clock : Nat → Nat
  rand : String
  sign : String
  publishOk : Bool

/-- The per-call observable send state: the envelopes published on
`agent-messages` and the `messagesSent` counter. -/
structure SendState where
  published : List P2PAgentMessage
  messagesSent : Nat
  deriving DecidableEq, Repr

/-- The `sendMessage` method. A failed lookup throws before anything is
built; the content bytes come from ECIES encryption or the raw UTF-8
encoding depending on `useEncryption`; the envelope reads `Date.now()`
once for the message id, once for `timestamp` and once for `nonce`; a
failed publish throws with nothing recorded; a successful publish appends
the envelope and increments `messagesSent`. -/
def sendMessage (env : SendEnv) (st : SendState) (selfAddr toAgentId content : String) :
    Except String String × SendState :=
  match env.lookupResult with
  | none => (Except.error ("Could not find PeerId for address " ++ toAgentId), st)
  | some _ =>
    let contentRes : Except String (List Nat) :=
      if env.useEncryption then env.encryptResult
      else Except.ok (env.utf8Enc content)
    match contentRes with
    | Except.error e => (Except.error e, st)
    | Except.ok bytes =>
      let msg : P2PAgentMessage :=
        { messageId := selfAddr ++ "-" ++ toString (env.clock 0) ++ "-" ++ env.rand
          fromAgentId := selfAddr
          toAgentId := toAgentId
          content := bytes
          timestamp := (env.clock 1 : Int)
          nonce := (env.clock 2 : Int)
          signature := env.sign }
      if env.publishOk then
        (Except.ok msg.messageId,
          { published := st.published ++ [msg], messagesSent := st.messagesSent + 1 })
      else (Except.error "PublishFailed", st)

/-! ## Theorems -/

/-- C1: a message received on `agent-messages` is emitted on the local
`message` event exactly when its signature verifies against its
`fromAgentId` (the `verifyMessage` check) and its `toAgentId` is present
and equals the node's own account address under the lowercased
comparison; a message failing either check is dropped without delivery. -/
theorem message_delivery_iff_verified_and_addressed
    (verifySig : String → String → String → Bool) (canon : P2PAgentMessage → String)
    (dec : List Nat → Option (List Nat)) (utf8 : List Nat → String)
    (selfAddr : String) (m : P2PAgentMessage) :
    (handleAgentMessage verifySig canon dec utf8 selfAddr m).isSome =
      (verifyMessage verifySig canon m && !(m.toAgentId == "") &&
        (jsToLower m.toAgentId == jsToLower selfAddr)) := by
  unfold handleAgentMessage
  cases hv : verifyMessage verifySig canon m
  · simp [hv]
  · by_cases ht : m.toAgentId = ""
    · simp [hv, ht]
    · by_cases hm : jsToLower m.toAgentId = jsToLower selfAddr
      · simp [hv, ht, hm]
      · simp [hv, ht, hm]

/-- C2 counterexample: an announcement whose enclosing message fails the
spec's verification — it carries no signature at all, and no
`fromAgentId` equal to the announced address — still writes the peer
binding into the directory table of a fresh node. -/
theorem announcement_stored_without_verification :
    specAnnouncementVerified false ""
        "0x1111111111111111111111111111111111111111" = false ∧
    mapFind (verifyAndProcessAnnouncement
        (initState "0xb9AE5BEDEE9768A9347798BD69bd9FCF6E557ab1")
        { peerId := "16Uiu2Forged", agentId := "0x1111111111111111111111111111111111111111"
          agentName := "mallory", multiaddrs := [] }).knownPeerToEthMap
      "16Uiu2Forged" = some "0x1111111111111111111111111111111111111111" := by
  constructor
  · rfl
  · rfl

/-- C2 as amended: `verifyAndProcessAnnouncement` checks no signature and
no `fromAgentId`; it stores the binding exactly when `peerId` and
`agentId` are non-empty and `agentId` differs string-exactly from the own
address, recording the display name under the lowercased address, and
leaves the state untouched when `agentId` equals the own address. -/
theorem announcement_guard_characterization (s : NodeState) (a : Announcement) :
    (a.agentId = s.selfAddr → verifyAndProcessAnnouncement s a = s) ∧
    (a.peerId ≠ "" → a.agentId ≠ "" → a.agentId ≠ s.selfAddr →
      mapFind (verifyAndProcessAnnouncement s a).knownPeerToEthMap a.peerId =
          some a.agentId ∧
        mapFind (verifyAndProcessAnnouncement s a).knownAgentNames
          (jsToLower a.agentId) = some a.agentName) := by
  constructor
  · intro h
    unfold verifyAndProcessAnnouncement
    rw [if_pos (Or.inr (Or.inr h))]
  · intro hp hid hself
    unfold verifyAndProcessAnnouncement
    rw [if_neg (by simp [hp, hid, hself])]
    exact ⟨mapSet_find_self _ _ _, mapSet_find_self _ _ _⟩

/-- C2 witness: a concrete announcement with non-empty fields and a
foreign address is stored under its peer id and lowercased address. -/
theorem announcement_guard_characterization_witness :
    mapFind (verifyAndProcessAnnouncement (initState "0xAb")
        { peerId := "p1", agentId := "0xCd", agentName := "n", multiaddrs := [] }).knownPeerToEthMap
      "p1" = some "0xCd" ∧
    mapFind (verifyAndProcessAnnouncement (initState "0xAb")
        { peerId := "p1", agentId := "0xCd", agentName := "n", multiaddrs := [] }).knownAgentNames
      "0xcd" = some "n" :=
  (announcement_guard_characterization (initState "0xAb")
    { peerId := "p1", agentId := "0xCd", agentName := "n", multiaddrs := [] }).2
    (by decide) (by decide) (by decide)

/-- C3 counterexample: a SERVER-role node keeps the default agent name
`"agent-1"`, and the options `start()` applies to it carry
`maxConnections = 50` where the spec's SERVER column requires 100;
moreover two nodes of the same role whose names differ in the
`"bootstrap-"` test receive different applied options, so the applied
networking configuration is not a function of the role tag. -/
theorem server_role_gets_full_options :
    defaultAgentName NodeRole.SERVER none none = "agent-1" ∧
    (startOptions Network.base "agent-1" 8000 []).maxConnections = 50 ∧
    (specRoleTable NodeRole.SERVER).maxConnections = 100 ∧
    (startOptions Network.base "agent-1" 8000 []).maxConnections ≠
      (startOptions Network.base "bootstrap-1" 8000 []).maxConnections := by
  refine ⟨rfl, rfl, rfl, ?_⟩
  decide

/-- C3 as amended: the `roleConfigs` table is a pure function of the role
tag and matches the spec's sixteen-option table exactly, but the options
`start()` actually applies never consult it: a name passing the
`"bootstrap-"` test receives the BOOTSTRAP column's connection and DHT
values and every other name receives the FULL column's, whatever the
node's role. -/
theorem role_table_matches_spec_but_start_ignores_role :
    (∀ r, matchesSpecRow (roleConfigs r) (specRoleTable r) = true) ∧
    (∀ (n : Network) (agentName : String) (port : Nat) (bootstrapNodes : List String),
      appliedMatchesRole (startOptions n agentName port bootstrapNodes)
        (if startIsBootstrap agentName then NodeRole.BOOTSTRAP else NodeRole.FULL) =
          true) := by
  constructor
  · intro r
    cases r <;> rfl
  · intro n agentName port bootstrapNodes
    by_cases h : startIsBootstrap agentName = true
    · simp [appliedMatchesRole, startOptions, roleConfigs, h]
    · rw [Bool.not_eq_true] at h
      simp [appliedMatchesRole, startOptions, roleConfigs, h]

/-- C4 counterexample: a node named `"bootstrap-evil"`, which matches no
entry of the compiled-in bootstrap registry, still operates as BOOTSTRAP,
because `start()` tests only the `"bootstrap-"` name prefix. -/
theorem unregistered_bootstrap_name_operates_bootstrap :
    operatesAsBootstrap Network.base
        "0x1234567890abcdef1234567890abcdef12345678" "bootstrap-evil" = true ∧
    specMatchesBootstrapRegistry
        "0x1234567890abcdef1234567890abcdef12345678" "bootstrap-evil" = false := by
  constructor
  · rfl
  · rfl

/-- C4 as amended: after `start()`, `bootstrapMode` holds exactly when the
agent name starts with `"bootstrap-"` or the lowercased account address
occurs among the `/p2p/` suffixes of the registry multiaddresses; those
suffixes are the four libp2p peer-id strings, so the address comparison
fails for the deployment's own bootstrap account addresses and the name
prefix alone decides in practice. -/
theorem bootstrap_mode_is_name_based (n : Network) (accountAddress agentName : String) :
    operatesAsBootstrap n accountAddress agentName =
      (jsStartsWith agentName "bootstrap-" ||
        (bootstrapPeerIdStrings n).contains (jsToLower accountAddress)) ∧
    bootstrapPeerIdStrings Network.base =
      ["16Uiu2HAmDD9JV9oqwTGiZzMJzEZJPA6hgrUyzSXdcqpnVhUJ2eXa",
       "16Uiu2HAkz9FFsJDhfx2658VXcmeooxtqPqtMYWUG5nJRXBWH45zc",
       "16Uiu2HAkwbtWw6HueqKdCK58oFKhfcpGL4bBJ4f6zndiD6mjmH4g",
       "16Uiu2HAm3rX7ZXyLo3FRNstXYWNZE55r8pRoXLzvSauNGEmkVLnh"] ∧
    ctorBootstrapMode Network.base "0xb9AE5BEDEE9768A9347798BD69bd9FCF6E557ab1" = false ∧
    ctorBootstrapMode Network.base "0x87886dd580de7daae4bc0a204a50a73f89281b28" = false ∧
    ctorBootstrapMode Network.base "0x1d1c89b79fc02bbc6f56c256e8ab5c4db890b2c3" = false ∧
    ctorBootstrapMode Network.base "0x4d1c89b79fc02bbc6f56c256e8ab5c4db890b2c4" = false := by
  refine ⟨rfl, by decide, by decide, by decide, by decide, by decide⟩

/-- C5 counterexample: for a non-bootstrap node in an environment where
every bootstrap dial fails and so no poll ever observes a connected peer,
`start()` never terminates with an error after any finite number of
polls: `waitForBootstrapConnection` has no timeout and never rejects, so
startup blocks indefinitely instead of failing. -/
theorem start_blocks_when_bootstraps_unreachable :
    startBlocksForever (fun _ => 0) (getBootstrapNodes Network.base)
      (fun _ _ => false) := by
  intro polls
  unfold startRegular
  rw [if_neg]
  rw [Bool.not_eq_true]
  unfold waitResolvesWithin
  simp

/-- C5 as amended: the bounded retry budget — 5 attempts, 10 s dial
timeout, 5 s back-off — lives in `startDiscovery`, which does throw after
the last failed round; but a non-bootstrap node with zero bootstrap
connections never reaches it, because `start()` first awaits
`waitForBootstrapConnection`, which polls forever. -/
theorem discovery_retry_budget (addrs : List String) (dialOk : Nat → String → Bool)
    (h : ∀ attempt addr, dialOk attempt addr = false) :
    startDiscoveryRegular addrs dialOk =
      Except.error "Failed to connect to any bootstrap nodes after 5 attempts" ∧
    MAX_BOOTSTRAP_ATTEMPTS = 5 ∧ DIAL_TIMEOUT_MS = 10000 ∧ RETRY_BACKOFF_MS = 5000 ∧
    startBlocksForever (fun _ => 0) addrs dialOk := by
  have hrounds : ∀ remaining attempt,
      discoveryRounds addrs dialOk remaining attempt = false := by
    intro remaining
    induction remaining with
    | zero => intro attempt; rfl
    | succ r ih =>
      intro attempt
      unfold discoveryRounds
      rw [if_neg, ih]
      simp [h]
  refine ⟨?_, rfl, rfl, rfl, ?_⟩
  · unfold startDiscoveryRegular
    rw [hrounds, if_neg]
    simp
  · intro polls
    unfold startRegular
    rw [if_neg]
    rw [Bool.not_eq_true]
    unfold waitResolvesWithin
    simp

/-- C5 witness: the retry budget theorem applied to the environment where
every dial fails, at the base-network bootstrap list. -/
theorem discovery_retry_budget_witness :
    startDiscoveryRegular (getBootstrapNodes Network.base) (fun _ _ => false) =
      Except.error "Failed to connect to any bootstrap nodes after 5 attempts" :=
  (discovery_retry_budget (getBootstrapNodes Network.base) (fun _ _ => false)
    (fun _ _ => rfl)).1

/-- C6: `sendMessage` either fails or returns the message id of the
published envelope; an unresolvable recipient fails with the
could-not-find-peer error and leaves the publish log and the
`messagesSent` counter untouched, and a successful send returns
`<selfAddr>-<nowMs>-<rand>` and appends exactly one envelope whose
`timestamp` and `nonce` both equal `nowMs`, under the hypothesis that the
three `Date.now()` readings of the call fall in the same millisecond. -/
theorem send_message_contract (env : SendEnv) (st : SendState)
    (selfAddr toAgentId content : String)
    (h1 : env.clock 1 = env.clock 0) (h2 : env.clock 2 = env.clock 0) :
    (env.lookupResult = none →
      sendMessage env st selfAddr toAgentId content =
        (Except.error ("Could not find PeerId for address " ++ toAgentId), st)) ∧
    (∀ mid st2, sendMessage env st selfAddr toAgentId content = (Except.ok mid, st2) →
      mid = selfAddr ++ "-" ++ toString (env.clock 0) ++ "-" ++ env.rand ∧
      ∃ m, st2.published = st.published ++ [m] ∧ m.messageId = mid ∧
        m.timestamp = (env.clock 0 : Int) ∧ m.nonce = (env.clock 0 : Int) ∧
        st2.messagesSent = st.messagesSent + 1) := by
  constructor
  · intro hnone
    unfold sendMessage
    rw [hnone]
  · intro mid st2 hok
    unfold sendMessage at hok
    cases hlook : env.lookupResult with
    | none => rw [hlook] at hok; simp at hok
    | some peer =>
      rw [hlook] at hok
      simp only at hok
      cases hcontent : (if env.useEncryption then env.encryptResult
          else Except.ok (env.utf8Enc content)) with
      | error e => rw [hcontent] at hok; simp at hok
      | ok bytes =>
        rw [hcontent] at hok
        simp only at hok
        cases hpub : env.publishOk with
        | false => rw [hpub] at hok; simp at hok
        | true =>
          rw [hpub] at hok
          rw [if_pos rfl] at hok
          injection hok with hfst hsnd
          injection hfst with hmid
          constructor
          · exact hmid.symm
          · refine ⟨{ messageId := selfAddr ++ "-" ++ toString (env.clock 0) ++ "-" ++ env.rand
                      fromAgentId := selfAddr, toAgentId := toAgentId, content := bytes
                      timestamp := (env.clock 1 : Int), nonce := (env.clock 2 : Int)
                      signature := env.sign }, ?_, ?_, ?_, ?_, ?_⟩
            · rw [← hsnd]
            · exact hmid
            · show ((env.clock 1 : Nat) : Int) = ((env.clock 0 : Nat) : Int)
              rw [h1]
            · show ((env.clock 2 : Nat) : Int) = ((env.clock 0 : Nat) : Int)
              rw [h2]
            · rw [← hsnd]

/-- C6 witness: a concrete successful send with a constant clock yields
the formatted message id and a single published envelope with equal
timestamp and nonce. -/
theorem send_message_contract_witness :
    "0xA" ++ "-" ++ toString 7 ++ "-" ++ "r" =
        "0xA" ++ "-" ++ toString 7 ++ "-" ++ "r" ∧
    ∃ m, (SendState.mk
        [{ messageId := "0xA" ++ "-" ++ toString 7 ++ "-" ++ "r", fromAgentId := "0xA"
           toAgentId := "0xB", content := [104], timestamp := (7 : Int)
           nonce := (7 : Int), signature := "sig" }] 1).published = [] ++ [m] ∧
      m.messageId = "0xA" ++ "-" ++ toString 7 ++ "-" ++ "r" ∧
      m.timestamp = (7 : Int) ∧ m.nonce = (7 : Int) ∧
      (1 : Nat) = 0 + 1 :=
  (send_message_contract
    { lookupResult := some "peer", useEncryption := false
      encryptResult := Except.ok [], utf8Enc := fun _ => [104]
      clock := fun _ => 7, rand := "r", sign := "sig", publishOk := true }
    (SendState.mk [] 0) "0xA" "0xB" "hi" rfl rfl).2
    ("0xA" ++ "-" ++ toString 7 ++ "-" ++ "r") _ rfl

/-- C7: once a message has passed the signature check and is addressed to
this node, the handler first tries to decrypt the content bytes with the
node's own key; exactly when decryption fails the same bytes are decoded
as plaintext UTF-8, and in both cases the message is delivered — a
decryption failure alone never drops it. -/
theorem trial_decrypt_plaintext_fallback
    (verifySig : String → String → String → Bool) (canon : P2PAgentMessage → String)
    (dec : List Nat → Option (List Nat)) (utf8 : List Nat → String)
    (selfAddr : String) (m : P2PAgentMessage)
    (hsig : verifyMessage verifySig canon m = true)
    (hto : m.toAgentId ≠ "")
    (hme : jsToLower m.toAgentId = jsToLower selfAddr) :
    (∀ d, dec m.content = some d →
      handleAgentMessage verifySig canon dec utf8 selfAddr m =
        some { messageId := m.messageId, fromAgentId := m.fromAgentId
               toAgentId := m.toAgentId, content := utf8 d, timestamp := m.timestamp }) ∧
    (dec m.content = none →
      handleAgentMessage verifySig canon dec utf8 selfAddr m =
        some { messageId := m.messageId, fromAgentId := m.fromAgentId
               toAgentId := m.toAgentId, content := utf8 m.content
               timestamp := m.timestamp }) := by
  constructor
  · intro d hd
    unfold handleAgentMessage
    rw [hsig]
    rw [if_neg (by simp), if_neg hto, if_pos hme, hd]
  · intro hd
    unfold handleAgentMessage
    rw [hsig]
    rw [if_neg (by simp), if_neg hto, if_pos hme, hd]

/-- C7 witness: a concrete verified message addressed to this node whose
decryption fails is still delivered, with its bytes decoded as plaintext. -/
theorem trial_decrypt_plaintext_fallback_witness :
    handleAgentMessage (fun _ _ _ => true) (fun _ => "") (fun _ => none)
        (fun _ => "hello") "0xb"
        { messageId := "id1", fromAgentId := "0xA", toAgentId := "0xB"
          content := [104], timestamp := 5, nonce := 5, signature := "sig" } =
      some { messageId := "id1", fromAgentId := "0xA", toAgentId := "0xB"
             content := "hello", timestamp := 5 } :=
  (trial_decrypt_plaintext_fallback (fun _ _ _ => true) (fun _ => "")
    (fun _ => none) (fun _ => "hello") "0xb"
    { messageId := "id1", fromAgentId := "0xA", toAgentId := "0xB"
      content := [104], timestamp := 5, nonce := 5, signature := "sig" }
    rfl (by decide) (by decide)).2 rfl

/-- C8 counterexample: a reachable state whose directory contains the
node's own account address under the lowercased comparison — one
announcement carrying the own address in lowercase passes the handler's
string-exact self guard and is stored in both directory tables. -/
theorem directory_contains_self_in_reachable_state :
    directoryContainsSelf (runOps "0xb9AE5BEDEE9768A9347798BD69bd9FCF6E557ab1"
      [Op.announcement
        { peerId := "16Uiu2SelfPeer"
          agentId := "0xb9ae5bedee9768a9347798bd69bd9fcf6e557ab1"
          agentName := "evil-twin", multiaddrs := [] }]) = true := by
  decide

/-- C8 as amended: the only self exclusion on any directory write path is
the announcement handler's string-exact comparison — an entry added by it
either predates the write or carries the announced `agentId`, which
differs from the own address only case-sensitively; the DHT-lookup and
peer-connect paths write unconditionally, so the case-insensitive
self-exclusion invariant does not hold. -/
theorem announcement_self_guard_is_exact (s : NodeState) (a : Announcement) :
    ∀ e ∈ (verifyAndProcessAnnouncement s a).knownPeerToEthMap,
      e ∈ s.knownPeerToEthMap ∨ (e.2 = a.agentId ∧ a.agentId ≠ s.selfAddr) := by
  intro e he
  unfold verifyAndProcessAnnouncement at he
  by_cases hguard : a.peerId = "" ∨ a.agentId = "" ∨ a.agentId = s.selfAddr
  · rw [if_pos hguard] at he
    exact Or.inl he
  · rw [if_neg hguard] at he
    simp only at he
    rcases mapSet_mem _ _ _ e he with hold | hnew
    · exact Or.inl hold
    · refine Or.inr ⟨by rw [hnew], ?_⟩
      intro hc
      exact hguard (Or.inr (Or.inr hc))

/-- C8 witness: the amended guard applied to a concrete foreign
announcement — the stored entry carries the announced address, which is
not the node's own. -/
theorem announcement_self_guard_is_exact_witness :
    ("p1", "0xCd") ∈ (initState "0xAb").knownPeerToEthMap ∨
      (("p1", "0xCd").2 = "0xCd" ∧ "0xCd" ≠ "0xAb") :=
  announcement_self_guard_is_exact (initState "0xAb")
    { peerId := "p1", agentId := "0xCd", agentName := "n", multiaddrs := [] }
    ("p1", "0xCd") (by decide)

/-- C9: the network-status query at time `now` purges every report whose
received-at stamp is more than 120000 ms old and returns only reports at
most 120000 ms old; the retained table satisfies the same bound, and no
stale entry of the previous table survives the query. -/
theorem status_query_purges_stale (s : NodeState) (now : Int) :
    (∀ r ∈ (getNetworkStatus s now).2, now - r.receivedAt ≤ 120000) ∧
    (∀ e ∈ ((getNetworkStatus s now).1).nodeStatuses, now - e.2.receivedAt ≤ 120000) ∧
    (∀ e ∈ s.nodeStatuses, now - e.2.receivedAt > 120000 →
      e ∉ ((getNetworkStatus s now).1).nodeStatuses) := by
  refine ⟨?_, ?_, ?_⟩
  · intro r hr
    simp only [getNetworkStatus, List.mem_map] at hr
    obtain ⟨e, he, hre⟩ := hr
    simp only [purgeStatuses, List.mem_filter] at he
    rw [← hre]
    have := he.2
    simp only [Bool.not_eq_true', decide_eq_false_iff_not, not_lt] at this
    exact this
  · intro e he
    simp only [getNetworkStatus, purgeStatuses, List.mem_filter] at he
    have := he.2
    simp only [Bool.not_eq_true', decide_eq_false_iff_not, not_lt] at this
    exact this
  · intro e _ hstale hmem
    simp only [getNetworkStatus, purgeStatuses, List.mem_filter] at hmem
    have := hmem.2
    simp only [Bool.not_eq_true', decide_eq_false_iff_not, not_lt] at this
    exact absurd hstale (not_lt.mpr this)

/-- C9 witness: at time 200000 a report received at time 0 is purged and a
report received at time 150000 is retained within the bound. -/
theorem status_query_purges_stale_witness :
    ("a", StatusReport.mk "p" 0) ∉
      ((getNetworkStatus
        { selfAddr := "0xA", knownPeers := [], knownPeerToEthMap := []
          knownAgentNames := [], nodeStatuses :=
            [("a", StatusReport.mk "p" 0), ("b", StatusReport.mk "q" 150000)]
          messagesSent := 0, messagesReceived := 0 } 200000).1).nodeStatuses :=
  (status_query_purges_stale
    { selfAddr := "0xA", knownPeers := [], knownPeerToEthMap := []
      knownAgentNames := [], nodeStatuses :=
        [("a", StatusReport.mk "p" 0), ("b", StatusReport.mk "q" 150000)]
      messagesSent := 0, messagesReceived := 0 } 200000).2.2
    ("a", StatusReport.mk "p" 0) (by decide) (by decide)

/-- Every operation of the node leaves the `knownPeers` set untouched:
no write path of the source ever inserts into it. -/
theorem applyOp_knownPeers (s : NodeState) (op : Op) :
    (applyOp s op).knownPeers = s.knownPeers := by
  cases op with
  | announcement a =>
    show (verifyAndProcessAnnouncement s a).knownPeers = s.knownPeers
    unfold verifyAndProcessAnnouncement
    split <;> rfl
  | peerConnect peerId agentId => rfl
  | dhtProviderHit peerId ethAddress => rfl
  | bootstrapPeerStore peerId ethAddress => rfl
  | deliverMessage => rfl
  | sendOk => rfl
  | statusUpdate agentId payload now => rfl
  | statusQuery now => rfl

/-- Folding any operation sequence preserves the `knownPeers` set. -/
theorem foldl_applyOp_knownPeers (ops : List Op) :
    ∀ s : NodeState, (ops.foldl applyOp s).knownPeers = s.knownPeers := by
  induction ops with
  | nil => intro s; rfl
  | cons op rest ih =>
    intro s
    rw [List.foldl_cons, ih, applyOp_knownPeers]

/-- C10: in every reachable state of a node, `getPeers()` returns the
empty list and the `peersCount` metric is zero, because no operation ever
inserts into the `knownPeers` set backing them — peer tracking lives in
the separate `knownPeerToEthMap`. -/
theorem getPeers_always_empty (selfAddr : String) (ops : List Op) :
    getPeers (runOps selfAddr ops) = [] ∧ metricsPeersCount (runOps selfAddr ops) = 0 := by
  have h : (runOps selfAddr ops).knownPeers = [] := by
    unfold runOps
    rw [foldl_applyOp_knownPeers]
    rfl
  exact ⟨h, by unfold metricsPeersCount; rw [h]; rfl⟩

end OpenPond
